import Mathlib

/-!
Verification of the ticketprozw Ticket Inventory & Fulfillment Consistency
Engine against its natural-language specification.

The development shallowly embeds the relevant Python source:
  - services/qr_service.py      (QR payload codec)
  - routers/tickets.py          (inventory ledger: ticket types, reserve, cancel)
  - routers/payments.py         (Stripe webhook / payment-event pipeline)
  - routers/validation.py       (check-in / check-out)
  - routers/admin.py            (ticket transfer)

Modelling conventions:
  - Database tables are Lean lists of structures; SQLAlchemy
    `query(...).filter(...).first()` becomes `List.find?` and in-place row
    mutation becomes `updateFirst` (replace the first matching element).
  - Timestamps are abstract `Nat` values passed in where the code calls
    `datetime.now()`; monetary amounts are integers (no claim involves
    fractional arithmetic).
  - JSON payload values are modelled by the scalar constructors of `Json`;
    a decoded JSON object (Python dict) is an association list.  The codec
    under verification never inspects nested JSON structure.
  - Endpoint handlers return a response paired with the post-state; raising
    an HTTP exception rolls the session back, so error responses are paired
    with the unchanged pre-state.
-/

namespace TicketProz

/-- Scalar JSON values, as stored in QR payload dictionaries. -/
inductive Json where
  | null
  | bool (b : Bool)
  | num (n : Int)
  | str (s : String)
  deriving DecidableEq, Repr

/-- A decoded JSON object (Python dict): association list from keys to values. -/
abbrev Dict := List (String × Json)

/-- Python `dict.get(k)`: value of the first entry with key `k`, if any. -/
def dictGet (d : Dict) (k : String) : Option Json :=
  (d.find? (fun e => e.1 == k)).map (·.2)

/-- Replace the first element satisfying `p` by its image under `f`.
This models SQLAlchemy in-place mutation of the row returned by
`query(...).filter(...).first()`. -/
def updateFirst (p : α → Bool) (f : α → α) : List α → List α
  | [] => []
  | x :: xs => if p x then f x :: xs else x :: updateFirst p f xs

theorem updateFirst_eq_of_fix (p : α → Bool) (f : α → α) (xs : List α) (a : α)
    (h : xs.find? p = some a) (hf : f a = a) : updateFirst p f xs = xs := by
  induction xs with
  | nil => simp at h
  | cons x xs ih =>
    by_cases hx : p x
    · simp [List.find?, hx] at h
      simp [updateFirst, hx, h ▸ hf]
    · simp [List.find?, hx] at h
      simp [updateFirst, hx, ih h]

theorem find?_updateFirst (p : α → Bool) (f : α → α) (xs : List α) (a : α)
    (h : xs.find? p = some a) (hp : p (f a) = true) :
    (updateFirst p f xs).find? p = some (f a) := by
  induction xs with
  | nil => simp at h
  | cons x xs ih =>
    by_cases hx : p x
    · simp [List.find?, hx] at h
      subst h
      simp [updateFirst, hx, List.find?, hp]
    · simp [List.find?, hx] at h
      simp [updateFirst, hx, List.find?, ih h]

theorem mem_updateFirst (p : α → Bool) (f : α → α) (xs : List α) (x : α)
    (h : x ∈ updateFirst p f xs) : x ∈ xs ∨ ∃ a, xs.find? p = some a ∧ x = f a := by
  induction xs with
  | nil => simp [updateFirst] at h
  | cons y ys ih =>
    by_cases hy : p y
    · simp [updateFirst, hy] at h
      rcases h with h | h
      · exact Or.inr ⟨y, by simp [List.find?, hy], h⟩
      · exact Or.inl (List.mem_cons_of_mem _ h)
    · simp [updateFirst, hy] at h
      rcases h with h | h
      · exact Or.inl (h ▸ List.mem_cons_self _ _)
      · rcases ih h with h' | ⟨a, ha, hx⟩
        · exact Or.inl (List.mem_cons_of_mem _ h')
        · exact Or.inr ⟨a, by simp [List.find?, hy, ha], hx⟩

/-! ## QR payload codec (services/qr_service.py) -/

/-- Payload dictionary built by `QRCodeService.generate_ticket_qr_code`
(qr_service.py lines 48-56).  The PNG rendering of the JSON text is elided:
the payload content is what the codec laws are about.  `generated_at` stands
for `datetime.now().isoformat()`, supplied by the caller of the model. -/
def generate_ticket_qr_code (ticket_id order_id event_id user_id : Int)
    (ticket_type : String) (generated_at : String) : Dict :=
  [ ("ticket_id", Json.num ticket_id)
  , ("order_id", Json.num order_id)
  , ("event_id", Json.num event_id)
  , ("user_id", Json.num user_id)
  , ("ticket_type", Json.str ticket_type)
  , ("generated_at", Json.str generated_at)
  , ("version", Json.str "1.0") ]

/-- Required fields checked by `decode_ticket_qr_code` (qr_service.py line 138). -/
def requiredFields : List String := ["ticket_id", "order_id", "event_id", "user_id"]

/-- First field of `fields` absent from `d`, scanning in order, as the
validation loop of `decode_ticket_qr_code` does. -/
def firstMissing (d : Dict) : List String → Option String
  | [] => none
  | f :: fs => if (dictGet d f).isNone then some f else firstMissing d fs

/-- Embedding of `QRCodeService.decode_ticket_qr_code` (qr_service.py lines
124-150).  The input is the `json.loads` result of the scanned text: `none`
models text that is not valid JSON (`json.JSONDecodeError`, re-raised as
`ValueError("Invalid QR code format")`); a parsed object is an association
list.  A `ValueError` maps to `Except.error` carrying its message. -/
def decode_ticket_qr_code (payload : Option Dict) : Except String Dict :=
  match payload with
  | none => Except.error "Invalid QR code format"
  | some qr_data =>
    match firstMissing qr_data requiredFields with
    | some f => Except.error ("Missing required field: " ++ f)
    | none => Except.ok qr_data

/-- Embedding of `QRCodeService.validate_qr_code_data` (qr_service.py lines
152-183): the decoded `event_id` must equal the scan context event id, and
`qr_data.get("version", "1.0")` must be in the supported list `["1.0"]`. -/
def validate_qr_code_data (qr_data : Dict) (expected_event_id : Int) : Bool :=
  if dictGet qr_data "event_id" != some (Json.num expected_event_id) then
    false
  else
    match dictGet qr_data "version" with
    | none => true
    | some (Json.str v) => v == "1.0"
    | some _ => false

/-- QR payload dictionary stored on a ticket by the fulfillment webhook
(routers/payments.py lines 341-347): five identity fields and, unlike
`generate_ticket_qr_code`, no `generated_at` and no `version` entry. -/
def webhook_qr_data (ticket_id order_id event_id user_id : Int)
    (ticket_type : String) : Dict :=
  [ ("ticket_id", Json.num ticket_id)
  , ("order_id", Json.num order_id)
  , ("event_id", Json.num event_id)
  , ("user_id", Json.num user_id)
  , ("ticket_type", Json.str ticket_type) ]

/-! ## Data model (models/users.py, events.py, orders.py, tickets.py, payments.py) -/

/-- Row of the `users` table (models/users.py); only the columns the verified
endpoints read. -/
structure Users where
  id : Nat
  email : String
  firstname : String
  surname : String
  role : String
  deleted_at : Option Nat := none
  deriving DecidableEq, Repr

/-- Row of the `events` table (models/events.py); only the columns the
verified endpoints read. -/
structure Events where
  id : Nat
  organizer_id : Nat
  event_name : String
  deleted_at : Option Nat := none
  deriving DecidableEq, Repr

/-- Row of the `ticket_types` table (models/tickets.py).  `quantity`,
`available_quantity` and `sold_quantity` are nullable integer columns. -/
structure TicketTypes where
  id : Nat
  event_id : Nat
  name : String
  description : String
  price : Int
  quantity : Option Int
  available_quantity : Option Int
  sold_quantity : Option Int
  deleted_at : Option Nat := none
  deriving DecidableEq, Repr

/-- Row of the `tickets` table (models/tickets.py).  `qr_code_data` holds the
parsed form of the JSON text stored in the column. -/
structure Tickets where
  id : Nat
  order_id : Nat
  ticket_type_id : Nat
  seat_number : String
  qr_code : Option String := none
  qr_code_data : Option Dict := none
  checked_in : Bool := false
  checked_out : Bool := false
  validated_at : Option Nat := none
  validated_by : Option Nat := none
  deleted_at : Option Nat := none
  deriving DecidableEq, Repr

/-- Row of the `orders` table (models/orders.py). -/
structure Orders where
  id : Nat
  user_id : Nat
  event_id : Nat
  order_date : Nat
  total_price : Int
  payment_method : String
  payment_status : String
  deleted_at : Option Nat := none
  deriving DecidableEq, Repr

/-- Row of the `payment_transactions` table (models/payments.py). -/
structure PaymentTransaction where
  id : Nat
  order_id : Nat
  stripe_payment_intent_id : String
  amount : Int
  currency : String := "USD"
  status : String
  payment_method : Option String := none
  stripe_customer_id : Option String := none
  stripe_charge_id : Option String := none
  error_message : Option String := none
  deleted_at : Option Nat := none
  deriving DecidableEq, Repr

/-- The database: one list per table, plus autoincrement counters for the
primary keys the verified endpoints allocate. -/
structure DB where
  users : List Users := []
  events : List Events := []
  orders : List Orders := []
  tickets : List Tickets := []
  ticket_types : List TicketTypes := []
  transactions : List PaymentTransaction := []
  next_ticket_type_id : Nat := 1
  next_ticket_id : Nat := 1
  next_order_id : Nat := 1
  deriving DecidableEq, Repr

/-- HTTP-level error outcomes raised by the endpoints (core/exceptions.py
exception classes and raw `HTTPException`s); the session is rolled back when
one is raised, so an error response leaves the database unchanged. -/
inductive ApiError where
  | notFound (detail : String)
  | forbidden (detail : String)
  | badRequest (detail : String)
  | internalError (detail : String)
  deriving DecidableEq, Repr

/-! ## Inventory ledger endpoints (routers/tickets.py) -/

/-- Body of a ticket-type creation request, with the pydantic
`TicketTypeCreate` constraints (schemas/tickets.py lines 31-44) checked by
`TicketTypeCreate.valid`. -/
structure TicketTypeCreate where
  event_id : Nat
  name : String
  description : String
  price : Int
  quantity : Int
  deriving DecidableEq, Repr

/-- Pydantic field constraints of `TicketTypeCreate`: `event_id` gt 0, name
length 3-100, description length 10-1000, price between 0 and 100000,
quantity between 1 and 100000.  FastAPI rejects a request violating them
with a 422 before the handler runs. -/
def TicketTypeCreate.valid (d : TicketTypeCreate) : Bool :=
  0 < d.event_id && 3 ≤ d.name.length && d.name.length ≤ 100 &&
  10 ≤ d.description.length && d.description.length ≤ 1000 &&
  0 ≤ d.price && d.price ≤ 100000 && 1 ≤ d.quantity && d.quantity ≤ 100000

/-- Embedding of `create_ticket_type` (routers/tickets.py lines 294-354),
with the pydantic 422 rejection folded in as the first check.  A new type
starts with `available_quantity` equal to the total quantity and
`sold_quantity` zero. -/
def create_ticket_type (current_user : Users) (d : TicketTypeCreate) (db : DB) :
    Except ApiError TicketTypes × DB :=
  if ¬ d.valid then
    (Except.error (ApiError.badRequest "Validation error"), db)
  else
    match db.events.find? (fun e => e.id == d.event_id && e.deleted_at.isNone) with
    | none => (Except.error (ApiError.notFound "Event not found"), db)
    | some event =>
      if current_user.role != "admin" && event.organizer_id != current_user.id then
        (Except.error (ApiError.forbidden
          "Only event organizers can create ticket types for their events"), db)
      else if (db.ticket_types.find? (fun t =>
          t.event_id == d.event_id && t.name == d.name && t.deleted_at.isNone)).isSome then
        (Except.error (ApiError.badRequest
          "Ticket type with this name already exists for this event"), db)
      else
        let tt : TicketTypes :=
          { id := db.next_ticket_type_id, event_id := d.event_id, name := d.name
          , description := d.description, price := d.price
          , quantity := some d.quantity
          , available_quantity := some d.quantity
          , sold_quantity := some 0 }
        (Except.ok tt,
          { db with ticket_types := db.ticket_types ++ [tt]
                  , next_ticket_type_id := db.next_ticket_type_id + 1 })

/-- Ticket-creation input as read by the `create_ticket` handler body
(routers/tickets.py lines 113-146: `order_id`, `ticket_type_id`,
`seat_number`, `qr_code`, `checked_in`, `checked_out`).  The declared
pydantic schema `TicketCreate` (schemas/tickets.py) lists only
`ticket_type_id` and `seat_number`: the handler reads attributes the schema
does not declare, so the embedding takes as input a record with exactly the
attributes the body dereferences. -/
structure TicketCreate where
  order_id : Nat
  ticket_type_id : Nat
  seat_number : String
  qr_code : Option String := none
  checked_in : Bool := false
  checked_out : Bool := false
  deriving DecidableEq, Repr

/-- Embedding of `create_ticket` (routers/tickets.py lines 100-161): the
reservation path.  The ticket-type row is read under `with_for_update()`;
the decrement-and-check runs against the locked row, which the sequential
model reflects directly. -/
def create_ticket (current_user : Users) (d : TicketCreate) (db : DB) :
    Except ApiError Tickets × DB :=
  match db.orders.find? (fun o => o.id == d.order_id && o.deleted_at.isNone) with
  | none => (Except.error (ApiError.notFound "Order not found"), db)
  | some order =>
    if order.user_id != current_user.id && current_user.role != "admin" then
      (Except.error (ApiError.forbidden
        "Not authorized to create ticket for this order"), db)
    else
      match db.ticket_types.find? (fun t =>
          t.id == d.ticket_type_id && t.deleted_at.isNone) with
      | none => (Except.error (ApiError.notFound "Ticket type not found"), db)
      | some ticket_type =>
        match ticket_type.available_quantity with
        | none =>
          (Except.error (ApiError.badRequest
            ("No tickets available for " ++ ticket_type.name ++ ". Sold out!")), db)
        | some avail =>
          if avail < 1 then
            (Except.error (ApiError.badRequest
              ("No tickets available for " ++ ticket_type.name ++ ". Sold out!")), db)
          else
            let tk : Tickets :=
              { id := db.next_ticket_id, order_id := d.order_id
              , ticket_type_id := d.ticket_type_id, seat_number := d.seat_number
              , qr_code := d.qr_code
              , checked_in := d.checked_in, checked_out := d.checked_out }
            let tts := updateFirst
              (fun t => t.id == d.ticket_type_id && t.deleted_at.isNone)
              (fun t => { t with
                  available_quantity := some (avail - 1)
                  , sold_quantity := some (t.sold_quantity.getD 0 + 1) })
              db.ticket_types
            (Except.ok tk,
              { db with tickets := db.tickets ++ [tk], ticket_types := tts
                      , next_ticket_id := db.next_ticket_id + 1 })

/-- Embedding of `cancel_ticket` (routers/tickets.py lines 206-245).  The
query joins `Tickets` with `Orders`, so a ticket whose order row is absent
is reported as not found.  The success path only soft-deletes the ticket;
it does not touch the ticket-type counters. -/
def cancel_ticket (current_user : Users) (ticket_id : Nat) (now : Nat) (db : DB) :
    Except ApiError String × DB :=
  match db.tickets.find? (fun t => t.id == ticket_id && t.deleted_at.isNone) with
  | none => (Except.error (ApiError.notFound "Ticket not found"), db)
  | some ticket =>
    match db.orders.find? (fun o => o.id == ticket.order_id) with
    | none => (Except.error (ApiError.notFound "Ticket not found"), db)
    | some order =>
      if order.user_id != current_user.id && current_user.role != "admin" then
        (Except.error (ApiError.forbidden "Not authorized to cancel this ticket"), db)
      else if ticket.checked_in then
        (Except.error (ApiError.badRequest
          "Cannot cancel a ticket that has been checked in"), db)
      else
        let tks := updateFirst (fun t => t.id == ticket_id && t.deleted_at.isNone)
          (fun t => { t with deleted_at := some now }) db.tickets
        (Except.ok "Ticket cancelled successfully", { db with tickets := tks })

/-! ## Payment webhook (routers/payments.py, stripe_webhook lines 233-445) -/

/-- Inbound Stripe webhook events as dispatched on by `stripe_webhook`.
`error_message` stands for the text extracted from
`payment_intent.last_payment_error`. -/
inductive StripeEvent where
  | payment_intent_succeeded (id : String)
      (payment_method customer latest_charge : Option String)
  | payment_intent_payment_failed (id : String) (error_message : String)
  | payment_intent_canceled (id : String)
  | other_event
  deriving DecidableEq, Repr

/-- QR fields written onto one ticket by the fulfillment loop
(routers/payments.py lines 334-361): `qr_code` is the short tag
`TICKET_id_orderid`, `qr_code_data` the JSON payload of `webhook_qr_data`.
The ticket-type lookup (no soft-delete filter, line 336) supplies the name,
defaulting to "Unknown". -/
def issue_ticket_qr (order : Orders) (ticket_types : List TicketTypes)
    (tk : Tickets) : Tickets :=
  let tname := match ticket_types.find? (fun t => t.id == tk.ticket_type_id) with
    | some t => t.name
    | none => "Unknown"
  { tk with
    qr_code := some ("TICKET_" ++ toString tk.id ++ "_" ++ toString order.id)
    , qr_code_data := some (webhook_qr_data tk.id order.id order.event_id
        order.user_id tname) }

/-- Transaction mutation of the succeeded branch (routers/payments.py lines
282-285). -/
def succeededTxUpdate (pm cust charge : Option String)
    (t : PaymentTransaction) : PaymentTransaction :=
  { t with status := "succeeded", payment_method := pm,
           stripe_customer_id := cust, stripe_charge_id := charge }

/-- Order mutation of the succeeded branch (routers/payments.py line 290). -/
def completeOrder (o : Orders) : Orders := { o with payment_status := "completed" }

/-- Transaction mutation of the failed branch (routers/payments.py lines
403-404). -/
def failedTxUpdate (errMsg : String) (t : PaymentTransaction) : PaymentTransaction :=
  { t with status := "failed", error_message := some errMsg }

/-- Order mutation of the failed branch (routers/payments.py line 409). -/
def failOrder (o : Orders) : Orders := { o with payment_status := "failed" }

/-- Transaction mutation of the canceled branch (routers/payments.py line 424). -/
def canceledTxUpdate (t : PaymentTransaction) : PaymentTransaction :=
  { t with status := "canceled" }

/-- Order mutation of the canceled branch (routers/payments.py line 429). -/
def cancelOrder (o : Orders) : Orders := { o with payment_status := "canceled" }

/-- Embedding of `stripe_webhook` (routers/payments.py lines 233-445) from
the event dispatch on.  The handler returns the JSON body
`status: success` in every non-exceptional path; e-mail dispatch is a pure
side channel and is elided.  The transaction lookup has no soft-delete
filter (line 277).  Note that no branch compares the stored status with the
incoming one: each branch overwrites unconditionally. -/
def stripe_webhook (ev : StripeEvent) (db : DB) : String × DB :=
  match ev with
  | StripeEvent.payment_intent_succeeded pid pm cust charge =>
    match db.transactions.find? (fun t => t.stripe_payment_intent_id == pid) with
    | none => ("success", db)
    | some transaction =>
      let txs := updateFirst (fun t => t.stripe_payment_intent_id == pid)
        (succeededTxUpdate pm cust charge) db.transactions
      match db.orders.find? (fun o => o.id == transaction.order_id) with
      | none => ("success", { db with transactions := txs })
      | some order =>
        let ords := updateFirst (fun o => o.id == transaction.order_id)
          completeOrder db.orders
        match db.users.find? (fun u => u.id == order.user_id) with
        | none => ("success", { db with transactions := txs, orders := ords })
        | some _ =>
          let tks := db.tickets.map (fun tk =>
            if tk.order_id == order.id && tk.deleted_at.isNone then
              issue_ticket_qr order db.ticket_types tk
            else tk)
          ("success", { db with transactions := txs, orders := ords, tickets := tks })
  | StripeEvent.payment_intent_payment_failed pid errMsg =>
    match db.transactions.find? (fun t => t.stripe_payment_intent_id == pid) with
    | none => ("success", db)
    | some transaction =>
      let txs := updateFirst (fun t => t.stripe_payment_intent_id == pid)
        (failedTxUpdate errMsg) db.transactions
      let ords :=
        if (db.orders.find? (fun o => o.id == transaction.order_id)).isSome then
          updateFirst (fun o => o.id == transaction.order_id) failOrder db.orders
        else db.orders
      ("success", { db with transactions := txs, orders := ords })
  | StripeEvent.payment_intent_canceled pid =>
    match db.transactions.find? (fun t => t.stripe_payment_intent_id == pid) with
    | none => ("success", db)
    | some transaction =>
      let txs := updateFirst (fun t => t.stripe_payment_intent_id == pid)
        canceledTxUpdate db.transactions
      let ords :=
        if (db.orders.find? (fun o => o.id == transaction.order_id)).isSome then
          updateFirst (fun o => o.id == transaction.order_id) cancelOrder db.orders
        else db.orders
      ("success", { db with transactions := txs, orders := ords })
  | StripeEvent.other_event => ("success", db)

/-! ## Check-in and check-out (routers/validation.py) -/

/-- Embedding of `check_in_ticket` (routers/validation.py lines 131-225),
including the `require_role(["admin", "organizer"])` route dependency.  The
already-checked-in refusal (code line 164) precedes the payment check (line
172); the error detail interpolating `validated_at` is kept as its constant
prefix. -/
def check_in_ticket (current_user : Users) (ticket_id : Nat) (now : Nat) (db : DB) :
    Except ApiError Unit × DB :=
  if ¬ (current_user.role == "admin" || current_user.role == "organizer") then
    (Except.error (ApiError.forbidden "Insufficient permissions"), db)
  else
    match db.tickets.find? (fun t => t.id == ticket_id && t.deleted_at.isNone) with
    | none => (Except.error (ApiError.notFound "Ticket not found"), db)
    | some ticket =>
      if ticket.checked_in then
        (Except.error (ApiError.badRequest "Ticket already checked in"), db)
      else
        match db.orders.find? (fun o => o.id == ticket.order_id) with
        | none =>
          (Except.error (ApiError.badRequest "Payment not confirmed for this ticket"), db)
        | some order =>
          if order.payment_status != "completed" then
            (Except.error (ApiError.badRequest
              "Payment not confirmed for this ticket"), db)
          else if current_user.role != "admin" &&
              (match db.events.find? (fun e => e.id == order.event_id) with
               | some event => event.organizer_id != current_user.id
               | none => false) then
            (Except.error (ApiError.forbidden
              "Not authorized to check in tickets for this event"), db)
          else
            let tks := updateFirst (fun t => t.id == ticket_id && t.deleted_at.isNone)
              (fun t => { t with checked_in := true, validated_at := some now,
                                 validated_by := some current_user.id }) db.tickets
            (Except.ok (), { db with tickets := tks })

/-! ## Ticket transfer (routers/admin.py, transfer_ticket lines 405-527) -/

/-- Embedding of `transfer_ticket` (routers/admin.py lines 405-527).  The
order lookup (line 432) is dereferenced without a null check; an absent
order row would raise and surface as a rolled-back 500, modelled as
`internalError`.  On success a new zero-cost completed order is created for
the new owner and the ticket is re-pointed to it; ticket-type counters are
untouched.  The result is the pair of old and new owner ids. -/
def transfer_ticket (current_user : Users) (ticket_id : Nat)
    (new_owner_email : String) (now : Nat) (db : DB) :
    Except ApiError (Nat × Nat) × DB :=
  match db.tickets.find? (fun t => t.id == ticket_id && t.deleted_at.isNone) with
  | none => (Except.error (ApiError.notFound "Ticket not found"), db)
  | some ticket =>
    match db.orders.find? (fun o => o.id == ticket.order_id) with
    | none => (Except.error (ApiError.internalError "Failed to transfer ticket"), db)
    | some order =>
      if order.user_id != current_user.id && current_user.role != "admin" then
        (Except.error (ApiError.forbidden "Not authorized to transfer this ticket"), db)
      else
        match db.users.find? (fun u =>
            u.email == new_owner_email && u.deleted_at.isNone) with
        | none =>
          (Except.error (ApiError.notFound
            ("User with email " ++ new_owner_email ++ " not found")), db)
        | some new_owner =>
          if new_owner.id == current_user.id then
            (Except.error (ApiError.badRequest "Cannot transfer ticket to yourself"), db)
          else if ticket.checked_in || ticket.validated_at.isSome then
            (Except.error (ApiError.badRequest
              "Cannot transfer a ticket that has already been validated or checked in"), db)
          else
            let new_order : Orders :=
              { id := db.next_order_id, user_id := new_owner.id
              , event_id := order.event_id, order_date := now
              , total_price := 0, payment_method := "transfer"
              , payment_status := "completed" }
            let tks := updateFirst (fun t => t.id == ticket_id && t.deleted_at.isNone)
              (fun t => { t with order_id := new_order.id }) db.tickets
            (Except.ok (order.user_id, new_owner.id),
              { db with orders := db.orders ++ [new_order], tickets := tks
                      , next_order_id := db.next_order_id + 1 })

/-! ## Claim C1: inventory counter invariant -/

/-- Core operations of the claimed invariant: ticket-type creation, ticket
reservation, ticket cancellation and payment-event application. -/
inductive Op where
  | createType (current_user : Users) (d : TicketTypeCreate)
  | reserve (current_user : Users) (d : TicketCreate)
  | cancel (current_user : Users) (ticket_id : Nat) (now : Nat)
  | payment (ev : StripeEvent)

/-- State reached by running one core operation (the response is dropped). -/
def applyOp (db : DB) (op : Op) : DB :=
  match op with
  | Op.createType u d => (create_ticket_type u d db).2
  | Op.reserve u d => (create_ticket u d db).2
  | Op.cancel u tid now => (cancel_ticket u tid now db).2
  | Op.payment ev => (stripe_webhook ev db).2

/-- The per-row counter invariant: counters are non-null, availability is
non-negative and available plus sold never exceeds the total quantity. -/
def TicketTypeInv (tt : TicketTypes) : Prop :=
  ∃ a s q, tt.available_quantity = some a ∧ tt.sold_quantity = some s ∧
    tt.quantity = some q ∧ 0 ≤ a ∧ a + s ≤ q

/-- The invariant over the whole `ticket_types` table. -/
def InvDB (db : DB) : Prop := ∀ tt ∈ db.ticket_types, TicketTypeInv tt

theorem create_ticket_type_inv (u : Users) (d : TicketTypeCreate) (db : DB)
    (h : InvDB db) : InvDB (create_ticket_type u d db).2 := by
  unfold create_ticket_type
  by_cases hv : d.valid
  · simp only [hv, not_true_eq_false, if_false]
    cases hev : db.events.find? (fun e => e.id == d.event_id && e.deleted_at.isNone) with
    | none => exact h
    | some event =>
      simp only
      split
      · exact h
      · split
        · exact h
        · intro tt htt
          rcases List.mem_append.mp htt with hmem | hnew
          · exact h tt hmem
          · have hq : 1 ≤ d.quantity := by
              simp [TicketTypeCreate.valid] at hv
              omega
            simp only [List.mem_singleton] at hnew
            subst hnew
            exact ⟨d.quantity, 0, d.quantity, rfl, rfl, rfl, by omega, by omega⟩
  · simp [hv, h]

theorem create_ticket_inv (u : Users) (d : TicketCreate) (db : DB)
    (h : InvDB db) : InvDB (create_ticket u d db).2 := by
  unfold create_ticket
  cases ho : db.orders.find? (fun o => o.id == d.order_id && o.deleted_at.isNone) with
  | none => exact h
  | some order =>
    simp only
    split
    · exact h
    · cases htt : db.ticket_types.find? (fun t =>
          t.id == d.ticket_type_id && t.deleted_at.isNone) with
      | none => exact h
      | some ticket_type =>
        simp only
        have httmem : ticket_type ∈ db.ticket_types := List.mem_of_find?_eq_some htt
        obtain ⟨a, s, q, ha, hs, hq, ha0, hasq⟩ := h ticket_type httmem
        cases hav : ticket_type.available_quantity with
        | none => exact h
        | some avail =>
          simp only
          split
          · exact h
          · rename_i hge
            intro tt htmem
            rcases mem_updateFirst _ _ _ _ htmem with hold | ⟨b, hb, htt'⟩
            · exact h tt hold
            · rw [htt] at hb
              injection hb with hb
              subst hb
              subst htt'
              have hav' : avail = a := by
                rw [ha] at hav
                injection hav with hv
                exact hv.symm
              subst hav'
              refine ⟨avail - 1, s + 1, q, rfl, ?_, hq, by omega, by omega⟩
              simp [hs]

theorem cancel_ticket_types_eq (u : Users) (tid now : Nat) (db : DB) :
    (cancel_ticket u tid now db).2.ticket_types = db.ticket_types := by
  unfold cancel_ticket
  split <;> try rfl
  split <;> try rfl
  split
  · rfl
  · split <;> rfl

theorem stripe_webhook_ticket_types_eq (ev : StripeEvent) (db : DB) :
    (stripe_webhook ev db).2.ticket_types = db.ticket_types := by
  cases ev with
  | payment_intent_succeeded pid pm cust charge =>
    cases h1 : db.transactions.find? (fun t => t.stripe_payment_intent_id == pid) with
    | none => simp [stripe_webhook, h1]
    | some t =>
      cases h2 : db.orders.find? (fun o => o.id == t.order_id) with
      | none => simp [stripe_webhook, h1, h2]
      | some o =>
        cases h3 : db.users.find? (fun u => u.id == o.user_id) with
        | none => simp [stripe_webhook, h1, h2, h3]
        | some usr => simp [stripe_webhook, h1, h2, h3]
  | payment_intent_payment_failed pid errMsg =>
    cases h1 : db.transactions.find? (fun t => t.stripe_payment_intent_id == pid) with
    | none => simp [stripe_webhook, h1]
    | some t => simp [stripe_webhook, h1]
  | payment_intent_canceled pid =>
    cases h1 : db.transactions.find? (fun t => t.stripe_payment_intent_id == pid) with
    | none => simp [stripe_webhook, h1]
    | some t => simp [stripe_webhook, h1]
  | other_event => rfl

theorem applyOp_inv (db : DB) (op : Op) (h : InvDB db) : InvDB (applyOp db op) := by
  cases op with
  | createType u d => exact create_ticket_type_inv u d db h
  | reserve u d => exact create_ticket_inv u d db h
  | cancel u tid now =>
    intro tt htt
    rw [applyOp, cancel_ticket_types_eq] at htt
    exact h tt htt
  | payment ev =>
    intro tt htt
    rw [applyOp, stripe_webhook_ticket_types_eq] at htt
    exact h tt htt

/-- C1: starting from any state whose ticket types satisfy the counter
invariant (in particular the empty database), every sequence of core
operations preserves, for every ticket type, that the counters are non-null,
`available_quantity` is non-negative and `available_quantity +
sold_quantity ≤ quantity`; and a successfully created ticket type starts
with `available_quantity` equal to the total `quantity` and `sold_quantity`
zero. -/
theorem inventory_counter_invariant :
    (∀ (ops : List Op) (db : DB), InvDB db → InvDB (ops.foldl applyOp db)) ∧
    InvDB {} ∧
    (∀ (u : Users) (d : TicketTypeCreate) (db : DB) (tt : TicketTypes),
      (create_ticket_type u d db).1 = Except.ok tt →
      tt.available_quantity = some d.quantity ∧
      tt.quantity = some d.quantity ∧
      tt.sold_quantity = some 0) := by
  refine ⟨?_, ?_, ?_⟩
  · intro ops
    induction ops with
    | nil => intro db h; exact h
    | cons op ops ih =>
      intro db h
      exact ih (applyOp db op) (applyOp_inv db op h)
  · intro tt htt
    simp at htt
  · intro u d db tt h
    unfold create_ticket_type at h
    split at h
    · exact absurd h (by simp)
    · split at h
      · exact absurd h (by simp)
      · split at h
        · exact absurd h (by simp)
        · split at h
          · exact absurd h (by simp)
          · simp only [Except.ok.injEq] at h
            subst h
            exact ⟨rfl, rfl, rfl⟩

/-- C1 witness: a concrete run of all four operation kinds from the empty
database satisfies the invariant, and a concrete successful creation starts
at available = total, sold = 0. -/
theorem inventory_counter_invariant_witness :
    InvDB ([ Op.createType
               { id := 1, email := "a", firstname := "A", surname := "B", role := "admin" }
               { event_id := 1, name := "General", description := "Ten chars ok"
               , price := 10, quantity := 5 }
           , Op.reserve
               { id := 1, email := "a", firstname := "A", surname := "B", role := "admin" }
               { order_id := 1, ticket_type_id := 1, seat_number := "A1" }
           , Op.cancel
               { id := 1, email := "a", firstname := "A", surname := "B", role := "admin" }
               1 7
           , Op.payment (StripeEvent.payment_intent_succeeded "pi_1" none none none)
           ].foldl applyOp {}) ∧
    (TicketTypes.available_quantity
        { id := 1, event_id := 1, name := "General", description := "Ten chars ok"
        , price := 10, quantity := some 5, available_quantity := some 5
        , sold_quantity := some 0 } = some 5 ∧
     TicketTypes.quantity
        { id := 1, event_id := 1, name := "General", description := "Ten chars ok"
        , price := 10, quantity := some 5, available_quantity := some 5
        , sold_quantity := some 0 } = some 5 ∧
     TicketTypes.sold_quantity
        { id := 1, event_id := 1, name := "General", description := "Ten chars ok"
        , price := 10, quantity := some 5, available_quantity := some 5
        , sold_quantity := some 0 } = some 0) := by
  constructor
  · exact (inventory_counter_invariant.1 _ {}) (fun tt htt => by simp at htt)
  · exact inventory_counter_invariant.2.2
      { id := 2, email := "o", firstname := "O", surname := "G", role := "organizer" }
      { event_id := 1, name := "General", description := "Ten chars ok"
      , price := 10, quantity := 5 }
      { events := [{ id := 1, organizer_id := 2, event_name := "E" }] }
      _ (by rfl)

/-! ## Concrete fixtures used by the witness theorems -/

/-- Fixture: an ordinary buyer account. -/
def buyer3 : Users :=
  { id := 3, email := "b", firstname := "B", surname := "Y", role := "user" }

/-- Fixture: an admin account. -/
def admin1 : Users :=
  { id := 1, email := "a", firstname := "A", surname := "B", role := "admin" }

/-- Fixture: a pending order owned by `buyer3`. -/
def ord31 : Orders :=
  { id := 1, user_id := 3, event_id := 1, order_date := 0, total_price := 10
  , payment_method := "card", payment_status := "pending" }

/-- Fixture: the `General` ticket type with five total units and the given
counters. -/
def ttGen (avail sold : Int) : TicketTypes :=
  { id := 1, event_id := 1, name := "General", description := "Ten chars ok"
  , price := 10, quantity := some 5, available_quantity := some avail
  , sold_quantity := some sold }

/-- Fixture: database with `buyer3`, their pending order and one `General`
ticket type with the given counters. -/
def dbC2 (avail sold : Int) : DB :=
  { users := [buyer3], orders := [ord31], ticket_types := [ttGen avail sold] }

/-- Fixture: database with `buyer3` and their pending order but no ticket
types. -/
def dbNoTypes : DB := { users := [buyer3], orders := [ord31] }

/-! ## Claim C2: reservation semantics -/

/-- C2: for an authorized caller on an existing order, reserving one unit
fails with the sold-out error and leaves the state unchanged when
`available_quantity` is null or below 1; succeeds when `available_quantity`
is at least 1, appending exactly one new not-checked-in, not-deleted ticket
and moving the counters by one unit each; and yields NotFound when no
non-deleted ticket type matches. -/
theorem reserve_one_unit_semantics :
    (∀ (u : Users) (d : TicketCreate) (db : DB) (order : Orders),
      db.orders.find? (fun o => o.id == d.order_id && o.deleted_at.isNone) = some order →
      (order.user_id = u.id ∨ u.role = "admin") →
      db.ticket_types.find? (fun t => t.id == d.ticket_type_id && t.deleted_at.isNone) = none →
      create_ticket u d db = (Except.error (ApiError.notFound "Ticket type not found"), db)) ∧
    (∀ (u : Users) (d : TicketCreate) (db : DB) (order : Orders) (tt : TicketTypes),
      db.orders.find? (fun o => o.id == d.order_id && o.deleted_at.isNone) = some order →
      (order.user_id = u.id ∨ u.role = "admin") →
      db.ticket_types.find? (fun t => t.id == d.ticket_type_id && t.deleted_at.isNone) = some tt →
      (tt.available_quantity = none ∨ ∃ a, tt.available_quantity = some a ∧ a < 1) →
      create_ticket u d db =
        (Except.error (ApiError.badRequest
          ("No tickets available for " ++ tt.name ++ ". Sold out!")), db)) ∧
    (∀ (u : Users) (d : TicketCreate) (db : DB) (order : Orders) (tt : TicketTypes)
       (a s : Int),
      db.orders.find? (fun o => o.id == d.order_id && o.deleted_at.isNone) = some order →
      (order.user_id = u.id ∨ u.role = "admin") →
      db.ticket_types.find? (fun t => t.id == d.ticket_type_id && t.deleted_at.isNone) = some tt →
      tt.available_quantity = some a → 1 ≤ a →
      tt.sold_quantity = some s →
      d.checked_in = false →
      ∃ tk : Tickets,
        (create_ticket u d db).1 = Except.ok tk ∧
        (create_ticket u d db).2.tickets = db.tickets ++ [tk] ∧
        tk.checked_in = false ∧ tk.deleted_at = none ∧
        tk.ticket_type_id = d.ticket_type_id ∧ tk.order_id = d.order_id ∧
        (create_ticket u d db).2.ticket_types.find?
            (fun t => t.id == d.ticket_type_id && t.deleted_at.isNone) =
          some { tt with available_quantity := some (a - 1)
                       , sold_quantity := some (s + 1) }) := by
  have hauthb : ∀ (u : Users) (order : Orders),
      (order.user_id = u.id ∨ u.role = "admin") →
      (order.user_id != u.id && u.role != "admin") = false := by
    intro u order h
    rcases h with h | h <;> simp [h]
  refine ⟨?_, ?_, ?_⟩
  · intro u d db order ho hauth htt
    simp [create_ticket, ho, hauthb u order hauth, htt]
  · intro u d db order tt ho hauth htt hav
    rcases hav with hav | ⟨a, hav, ha1⟩
    · simp [create_ticket, ho, hauthb u order hauth, htt, hav]
    · simp [create_ticket, ho, hauthb u order hauth, htt, hav, ha1]
  · intro u d db order tt a s ho hauth htt hav ha1 hs hci
    have hnl : ¬ a < 1 := by omega
    refine ⟨{ id := db.next_ticket_id, order_id := d.order_id
            , ticket_type_id := d.ticket_type_id, seat_number := d.seat_number
            , qr_code := d.qr_code, checked_in := d.checked_in
            , checked_out := d.checked_out }, ?_, ?_, hci, rfl, rfl, rfl, ?_⟩
    · simp [create_ticket, ho, hauthb u order hauth, htt, hav, hnl]
    · simp [create_ticket, ho, hauthb u order hauth, htt, hav, hnl]
    · have hp : (tt.id == d.ticket_type_id && tt.deleted_at.isNone) = true := by
        have hm := List.find?_some htt
        simpa using hm
      have hres := find?_updateFirst
        (fun t => t.id == d.ticket_type_id && t.deleted_at.isNone)
        (fun t => { t with available_quantity := some (a - 1),
                           sold_quantity := some (t.sold_quantity.getD 0 + 1) })
        db.ticket_types tt htt (by simpa using hp)
      simp [create_ticket, ho, hauthb u order hauth, htt, hav, hnl]
      rw [hres]
      simp [hs]

/-- C2 witness: concrete runs of the three branches. -/
theorem reserve_one_unit_semantics_witness :
    (create_ticket buyer3 { order_id := 1, ticket_type_id := 9, seat_number := "A1" }
        dbNoTypes =
      (Except.error (ApiError.notFound "Ticket type not found"), dbNoTypes)) ∧
    (create_ticket buyer3 { order_id := 1, ticket_type_id := 1, seat_number := "A1" }
        (dbC2 0 5) =
      (Except.error (ApiError.badRequest "No tickets available for General. Sold out!"),
        dbC2 0 5)) ∧
    (∃ tk : Tickets,
      (create_ticket buyer3 { order_id := 1, ticket_type_id := 1, seat_number := "A1" }
          (dbC2 5 0)).1 = Except.ok tk ∧
      (create_ticket buyer3 { order_id := 1, ticket_type_id := 1, seat_number := "A1" }
          (dbC2 5 0)).2.ticket_types.find?
          (fun t => t.id == 1 && t.deleted_at.isNone) =
        some { ttGen 5 0 with available_quantity := some 4, sold_quantity := some 1 }) := by
  refine ⟨?_, ?_, ?_⟩
  · exact reserve_one_unit_semantics.1 buyer3
      { order_id := 1, ticket_type_id := 9, seat_number := "A1" } dbNoTypes ord31
      (by rfl) (Or.inl rfl) (by rfl)
  · have h := reserve_one_unit_semantics.2.1 buyer3
      { order_id := 1, ticket_type_id := 1, seat_number := "A1" } (dbC2 0 5) ord31
      (ttGen 0 5) (by rfl) (Or.inl rfl) (by rfl) (Or.inr ⟨0, rfl, by decide⟩)
    simpa [ttGen] using h
  · obtain ⟨tk, h1, _, _, _, _, _, h7⟩ :=
      reserve_one_unit_semantics.2.2 buyer3
        { order_id := 1, ticket_type_id := 1, seat_number := "A1" } (dbC2 5 0) ord31
        (ttGen 5 0) 5 0 (by rfl) (Or.inl rfl) (by rfl) (by rfl) (by decide)
        (by rfl) (by rfl)
    exact ⟨tk, h1, by simpa using h7⟩

/-! ## Claim C3: duplicate succeeded notifications -/

theorem issue_ticket_qr_idem (o : Orders) (tts : List TicketTypes) (tk : Tickets) :
    issue_ticket_qr o tts (issue_ticket_qr o tts tk) = issue_ticket_qr o tts tk := rfl

theorem issue_ticket_qr_completeOrder (o : Orders)
    (tts : List TicketTypes) (tk : Tickets) :
    issue_ticket_qr (completeOrder o) tts tk = issue_ticket_qr o tts tk := rfl

theorem succeededTxUpdate_order_id (pm cu ch : Option String)
    (t : PaymentTransaction) :
    (succeededTxUpdate pm cu ch t).order_id = t.order_id := rfl

theorem completeOrder_id (o : Orders) : (completeOrder o).id = o.id := rfl

theorem completeOrder_user_id (o : Orders) :
    (completeOrder o).user_id = o.user_id := rfl

/-- C3: applying the same succeeded notification twice is idempotent on the
database: the second application returns success and the state after it
equals the state after the first; and a first genuine application marks the
transaction succeeded, the order completed, and rewrites exactly the
non-deleted tickets of that order with their QR payload. -/
theorem webhook_succeeded_idempotent :
    (∀ (pid : String) (pm cu ch : Option String) (db : DB),
      stripe_webhook (StripeEvent.payment_intent_succeeded pid pm cu ch)
          ((stripe_webhook (StripeEvent.payment_intent_succeeded pid pm cu ch) db).2) =
        ("success",
          (stripe_webhook (StripeEvent.payment_intent_succeeded pid pm cu ch) db).2)) ∧
    (∀ (pid : String) (pm cu ch : Option String) (db : DB)
       (t : PaymentTransaction) (o : Orders) (usr : Users),
      db.transactions.find? (fun x => x.stripe_payment_intent_id == pid) = some t →
      db.orders.find? (fun x => x.id == t.order_id) = some o →
      db.users.find? (fun x => x.id == o.user_id) = some usr →
      (stripe_webhook (StripeEvent.payment_intent_succeeded pid pm cu ch) db).2.orders.find?
          (fun x => x.id == t.order_id) = some (completeOrder o) ∧
      (stripe_webhook (StripeEvent.payment_intent_succeeded pid pm cu ch) db).2.transactions.find?
          (fun x => x.stripe_payment_intent_id == pid) =
        some (succeededTxUpdate pm cu ch t) ∧
      (stripe_webhook (StripeEvent.payment_intent_succeeded pid pm cu ch) db).2.tickets =
        db.tickets.map (fun tk =>
          if tk.order_id == o.id && tk.deleted_at.isNone then
            issue_ticket_qr o db.ticket_types tk
          else tk) ∧
      (∀ tk ∈ (stripe_webhook (StripeEvent.payment_intent_succeeded pid pm cu ch) db).2.tickets,
        tk.order_id = o.id → tk.deleted_at = none → tk.qr_code_data ≠ none)) := by
  constructor
  · intro pid pm cu ch db
    cases h1 : db.transactions.find? (fun x => x.stripe_payment_intent_id == pid) with
    | none =>
      have e1 : (stripe_webhook (StripeEvent.payment_intent_succeeded pid pm cu ch) db).2 = db := by
        simp [stripe_webhook, h1]
      rw [e1]
      simp [stripe_webhook, h1]
    | some t =>
      have hpt : (t.stripe_payment_intent_id == pid) = true := by
        simpa using List.find?_some h1
      have htx := find?_updateFirst (fun x => x.stripe_payment_intent_id == pid)
        (succeededTxUpdate pm cu ch) db.transactions t h1 hpt
      have htxfix := updateFirst_eq_of_fix (fun x => x.stripe_payment_intent_id == pid)
        (succeededTxUpdate pm cu ch)
        (updateFirst (fun x => x.stripe_payment_intent_id == pid)
          (succeededTxUpdate pm cu ch) db.transactions) _ htx rfl
      cases h2 : db.orders.find? (fun x => x.id == t.order_id) with
      | none =>
        have e1 : (stripe_webhook (StripeEvent.payment_intent_succeeded pid pm cu ch) db).2 =
            { db with
                transactions := updateFirst (fun x => x.stripe_payment_intent_id == pid)
                  (succeededTxUpdate pm cu ch) db.transactions } := by
          simp [stripe_webhook, h1, h2]
        rw [e1]
        simp only [stripe_webhook, htx]
        simp [succeededTxUpdate_order_id, h2, htxfix]
      | some o =>
        have hqo : (o.id == t.order_id) = true := by simpa using List.find?_some h2
        have hord := find?_updateFirst (fun x => x.id == t.order_id)
          completeOrder db.orders o h2 hqo
        have hordfix := updateFirst_eq_of_fix (fun x => x.id == t.order_id)
          completeOrder
          (updateFirst (fun x => x.id == t.order_id) completeOrder db.orders) _ hord rfl
        cases h3 : db.users.find? (fun x => x.id == o.user_id) with
        | none =>
          have e1 : (stripe_webhook (StripeEvent.payment_intent_succeeded pid pm cu ch) db).2 =
              { db with
                  transactions := updateFirst
                    (fun x => x.stripe_payment_intent_id == pid)
                    (succeededTxUpdate pm cu ch) db.transactions
                  , orders := updateFirst (fun x => x.id == t.order_id)
                      completeOrder db.orders } := by
            simp [stripe_webhook, h1, h2, h3]
          rw [e1]
          simp only [stripe_webhook, htx]
          simp [succeededTxUpdate_order_id, hord, completeOrder_user_id, h3,
            htxfix, hordfix]
        | some usr =>
          have hFF : ∀ tk : Tickets,
              (fun tk => if tk.order_id == o.id && tk.deleted_at.isNone then
                  issue_ticket_qr o db.ticket_types tk
                else tk)
              ((fun tk => if tk.order_id == o.id && tk.deleted_at.isNone then
                  issue_ticket_qr o db.ticket_types tk
                else tk) tk) =
              (fun tk => if tk.order_id == o.id && tk.deleted_at.isNone then
                  issue_ticket_qr o db.ticket_types tk
                else tk) tk := by
            intro tk
            by_cases hc : (tk.order_id == o.id && tk.deleted_at.isNone) = true
            · simp only [hc, if_true]
              have hc2 : ((issue_ticket_qr o db.ticket_types tk).order_id == o.id &&
                  (issue_ticket_qr o db.ticket_types tk).deleted_at.isNone) = true := hc
              simp only [hc2, if_true, issue_ticket_qr_idem]
            · simp only [hc, if_false]
              simp only [Bool.not_eq_true] at hc
              simp [hc]
          have e1 : (stripe_webhook (StripeEvent.payment_intent_succeeded pid pm cu ch) db).2 =
              { db with
                  transactions := updateFirst
                    (fun x => x.stripe_payment_intent_id == pid)
                    (succeededTxUpdate pm cu ch) db.transactions
                  , orders := updateFirst (fun x => x.id == t.order_id)
                      completeOrder db.orders
                  , tickets := db.tickets.map (fun tk =>
                      if tk.order_id == o.id && tk.deleted_at.isNone then
                        issue_ticket_qr o db.ticket_types tk
                      else tk) } := by
            simp [stripe_webhook, h1, h2, h3]
          rw [e1]
          simp only [stripe_webhook, htx]
          simp only [succeededTxUpdate_order_id, hord, completeOrder_user_id,
            completeOrder_id, issue_ticket_qr_completeOrder, h3]
          rw [htxfix, hordfix]
          rw [List.map_map]
          have hmap : List.map
              ((fun tk => if tk.order_id == o.id && tk.deleted_at.isNone then
                  issue_ticket_qr o db.ticket_types tk
                else tk) ∘
               (fun tk => if tk.order_id == o.id && tk.deleted_at.isNone then
                  issue_ticket_qr o db.ticket_types tk
                else tk)) db.tickets =
              List.map (fun tk => if tk.order_id == o.id && tk.deleted_at.isNone then
                  issue_ticket_qr o db.ticket_types tk
                else tk) db.tickets :=
            List.map_congr_left (fun tk _ => hFF tk)
          rw [hmap]
  · intro pid pm cu ch db t o usr h1 h2 h3
    have hpt : (t.stripe_payment_intent_id == pid) = true := by
      simpa using List.find?_some h1
    have hqo : (o.id == t.order_id) = true := by simpa using List.find?_some h2
    have htx := find?_updateFirst (fun x => x.stripe_payment_intent_id == pid)
      (succeededTxUpdate pm cu ch) db.transactions t h1 hpt
    have hord := find?_updateFirst (fun x => x.id == t.order_id)
      completeOrder db.orders o h2 hqo
    have e1 : (stripe_webhook (StripeEvent.payment_intent_succeeded pid pm cu ch) db).2 =
        { db with
            transactions := updateFirst
              (fun x => x.stripe_payment_intent_id == pid)
              (succeededTxUpdate pm cu ch) db.transactions
            , orders := updateFirst (fun x => x.id == t.order_id)
                completeOrder db.orders
            , tickets := db.tickets.map (fun tk =>
                if tk.order_id == o.id && tk.deleted_at.isNone then
                  issue_ticket_qr o db.ticket_types tk
                else tk) } := by
      simp [stripe_webhook, h1, h2, h3]
    rw [e1]
    refine ⟨hord, htx, rfl, ?_⟩
    intro tk htk hoid hdel
    simp only [List.mem_map] at htk
    obtain ⟨tk0, _, htk0⟩ := htk
    by_cases hc : (tk0.order_id == o.id && tk0.deleted_at.isNone) = true
    · rw [if_pos hc] at htk0
      rw [← htk0]
      simp [issue_ticket_qr]
    · rw [if_neg hc] at htk0
      subst htk0
      exact absurd (by simp [hoid, hdel]) hc

/-- C3 witness: a concrete duplicate delivery; the first call completes the
order, the second leaves the state of the first in place. -/
theorem webhook_succeeded_idempotent_witness :
    stripe_webhook (StripeEvent.payment_intent_succeeded "pi_1" none none none)
        ((stripe_webhook (StripeEvent.payment_intent_succeeded "pi_1" none none none)
          { users := [buyer3], orders := [ord31]
          , tickets := [{ id := 1, order_id := 1, ticket_type_id := 1, seat_number := "A1" }]
          , ticket_types := [ttGen 4 1]
          , transactions := [{ id := 1, order_id := 1, stripe_payment_intent_id := "pi_1"
                             , amount := 10, status := "pending" }] }).2) =
      ("success",
        (stripe_webhook (StripeEvent.payment_intent_succeeded "pi_1" none none none)
          { users := [buyer3], orders := [ord31]
          , tickets := [{ id := 1, order_id := 1, ticket_type_id := 1, seat_number := "A1" }]
          , ticket_types := [ttGen 4 1]
          , transactions := [{ id := 1, order_id := 1, stripe_payment_intent_id := "pi_1"
                             , amount := 10, status := "pending" }] }).2) ∧
    (stripe_webhook (StripeEvent.payment_intent_succeeded "pi_1" none none none)
        { users := [buyer3], orders := [ord31]
        , tickets := [{ id := 1, order_id := 1, ticket_type_id := 1, seat_number := "A1" }]
        , ticket_types := [ttGen 4 1]
        , transactions := [{ id := 1, order_id := 1, stripe_payment_intent_id := "pi_1"
                           , amount := 10, status := "pending" }] }).2.orders.find?
        (fun x => x.id == 1) = some { ord31 with payment_status := "completed" } := by
  constructor
  · exact webhook_succeeded_idempotent.1 "pi_1" none none none _
  · exact (webhook_succeeded_idempotent.2 "pi_1" none none none _
      { id := 1, order_id := 1, stripe_payment_intent_id := "pi_1"
      , amount := 10, status := "pending" } ord31 buyer3
      (by rfl) (by rfl) (by rfl)).1

/-! ## Claim C4: out-of-order failed or cancelled after succeeded -/

/-- Fixture: `ord31` after fulfillment, payment completed. -/
def ordCompleted : Orders := { ord31 with payment_status := "completed" }

/-- Fixture: a transaction already applied as succeeded. -/
def txSucceeded : PaymentTransaction :=
  { id := 1, order_id := 1, stripe_payment_intent_id := "pi_1"
  , amount := 10, status := "succeeded" }

/-- Fixture: a fulfilled state, order completed and transaction succeeded. -/
def dbC4 : DB := { orders := [ordCompleted], transactions := [txSucceeded] }

/-- C4 counterexample: the claim says a Failed notification arriving after
Succeeded is rejected or ignored, the transaction never moving away from
succeeded; but the webhook has no stale-event guard: on a state with a
succeeded transaction and a completed order, a failed event overwrites both
to failed. -/
theorem failed_event_overwrites_succeeded :
    txSucceeded.status = "succeeded" ∧
    ordCompleted.payment_status = "completed" ∧
    (stripe_webhook (StripeEvent.payment_intent_payment_failed "pi_1" "card declined")
        dbC4).2.transactions.map (fun t => t.status) = ["failed"] ∧
    (stripe_webhook (StripeEvent.payment_intent_payment_failed "pi_1" "card declined")
        dbC4).2.orders.map (fun o => o.payment_status) = ["failed"] :=
  ⟨rfl, rfl, rfl, rfl⟩

/-- C4 (amended): the webhook applies a Failed notification unconditionally,
whatever the stored status: the matching transaction is overwritten to
failed with the error message, the matching order is overwritten to failed,
the response is still success, and the tickets (including issued QR
payloads) are left untouched rather than reverted.  The cancelled branch
behaves the same way. -/
theorem webhook_failed_overwrites :
    (∀ (pid errMsg : String) (db : DB) (t : PaymentTransaction) (o : Orders),
      db.transactions.find? (fun x => x.stripe_payment_intent_id == pid) = some t →
      db.orders.find? (fun x => x.id == t.order_id) = some o →
      (stripe_webhook (StripeEvent.payment_intent_payment_failed pid errMsg) db).1 =
        "success" ∧
      (stripe_webhook (StripeEvent.payment_intent_payment_failed pid errMsg) db).2.transactions.find?
          (fun x => x.stripe_payment_intent_id == pid) = some (failedTxUpdate errMsg t) ∧
      (stripe_webhook (StripeEvent.payment_intent_payment_failed pid errMsg) db).2.orders.find?
          (fun x => x.id == t.order_id) = some (failOrder o) ∧
      (stripe_webhook (StripeEvent.payment_intent_payment_failed pid errMsg) db).2.tickets =
        db.tickets) ∧
    (∀ (pid : String) (db : DB) (t : PaymentTransaction) (o : Orders),
      db.transactions.find? (fun x => x.stripe_payment_intent_id == pid) = some t →
      db.orders.find? (fun x => x.id == t.order_id) = some o →
      (stripe_webhook (StripeEvent.payment_intent_canceled pid) db).2.transactions.find?
          (fun x => x.stripe_payment_intent_id == pid) = some (canceledTxUpdate t) ∧
      (stripe_webhook (StripeEvent.payment_intent_canceled pid) db).2.orders.find?
          (fun x => x.id == t.order_id) = some (cancelOrder o) ∧
      (stripe_webhook (StripeEvent.payment_intent_canceled pid) db).2.tickets =
        db.tickets) := by
  constructor
  · intro pid errMsg db t o h1 h2
    have hpt : (t.stripe_payment_intent_id == pid) = true := by
      simpa using List.find?_some h1
    have htx := find?_updateFirst (fun x => x.stripe_payment_intent_id == pid)
      (failedTxUpdate errMsg) db.transactions t h1 hpt
    have hord := find?_updateFirst (fun x => x.id == t.order_id)
      failOrder db.orders o h2 (by simpa using List.find?_some h2)
    have e1 : stripe_webhook (StripeEvent.payment_intent_payment_failed pid errMsg) db =
        ("success",
          { db with
              transactions := updateFirst (fun x => x.stripe_payment_intent_id == pid)
                (failedTxUpdate errMsg) db.transactions
              , orders := updateFirst (fun x => x.id == t.order_id)
                  failOrder db.orders }) := by
      simp [stripe_webhook, h1, h2]
    rw [e1]
    exact ⟨rfl, htx, hord, rfl⟩
  · intro pid db t o h1 h2
    have hpt : (t.stripe_payment_intent_id == pid) = true := by
      simpa using List.find?_some h1
    have htx := find?_updateFirst (fun x => x.stripe_payment_intent_id == pid)
      canceledTxUpdate db.transactions t h1 hpt
    have hord := find?_updateFirst (fun x => x.id == t.order_id)
      cancelOrder db.orders o h2 (by simpa using List.find?_some h2)
    have e1 : stripe_webhook (StripeEvent.payment_intent_canceled pid) db =
        ("success",
          { db with
              transactions := updateFirst (fun x => x.stripe_payment_intent_id == pid)
                canceledTxUpdate db.transactions
              , orders := updateFirst (fun x => x.id == t.order_id)
                  cancelOrder db.orders }) := by
      simp [stripe_webhook, h1, h2]
    rw [e1]
    exact ⟨htx, hord, rfl⟩

/-- C4 amended-claim witness: the failed branch applied at the fulfilled
fixture state. -/
theorem webhook_failed_overwrites_witness :
    (stripe_webhook (StripeEvent.payment_intent_payment_failed "pi_1" "card declined")
        dbC4).1 = "success" ∧
    (stripe_webhook (StripeEvent.payment_intent_payment_failed "pi_1" "card declined")
        dbC4).2.transactions.find?
        (fun x => x.stripe_payment_intent_id == "pi_1") =
      some (failedTxUpdate "card declined" txSucceeded) ∧
    (stripe_webhook (StripeEvent.payment_intent_payment_failed "pi_1" "card declined")
        dbC4).2.orders.find? (fun x => x.id == 1) = some (failOrder ordCompleted) ∧
    (stripe_webhook (StripeEvent.payment_intent_payment_failed "pi_1" "card declined")
        dbC4).2.tickets = dbC4.tickets := by
  have h := webhook_failed_overwrites.1 "pi_1" "card declined" dbC4 txSucceeded
    ordCompleted (by rfl) (by rfl)
  exact h

/-! ## Claim C9: unknown external reference -/

/-- C9 counterexample: the claim says an unknown `externalReferenceId` yields
a NotFound outcome, but the webhook on an empty database returns the success
body and leaves the state unchanged. -/
theorem unknown_reference_returns_success :
    stripe_webhook (StripeEvent.payment_intent_succeeded "pi_unknown" none none none)
      ({} : DB) = ("success", ({} : DB)) := rfl

/-- C9 (amended): when no PaymentTransaction matches the incoming
`externalReferenceId`, every webhook branch returns the success response and
applies no state change; no NotFound outcome exists on this path. -/
theorem webhook_unknown_reference_noop :
    ∀ (pid errMsg : String) (pm cu ch : Option String) (db : DB),
      db.transactions.find? (fun x => x.stripe_payment_intent_id == pid) = none →
      stripe_webhook (StripeEvent.payment_intent_succeeded pid pm cu ch) db =
        ("success", db) ∧
      stripe_webhook (StripeEvent.payment_intent_payment_failed pid errMsg) db =
        ("success", db) ∧
      stripe_webhook (StripeEvent.payment_intent_canceled pid) db = ("success", db) := by
  intro pid errMsg pm cu ch db h1
  refine ⟨?_, ?_, ?_⟩ <;> simp [stripe_webhook, h1]

/-- C9 amended-claim witness: the no-op at a concrete state carrying one
unrelated transaction. -/
theorem webhook_unknown_reference_noop_witness :
    stripe_webhook (StripeEvent.payment_intent_succeeded "pi_unknown" none none none)
        dbC4 = ("success", dbC4) ∧
    stripe_webhook (StripeEvent.payment_intent_payment_failed "pi_unknown" "m") dbC4 =
      ("success", dbC4) ∧
    stripe_webhook (StripeEvent.payment_intent_canceled "pi_unknown") dbC4 =
      ("success", dbC4) :=
  webhook_unknown_reference_noop "pi_unknown" "m" none none none dbC4 (by rfl)

/-! ## Claim C5: cancellation and inventory release -/

/-- Fixture: one sold-out ticket type, one reserved (not checked-in) ticket
on the buyer order. -/
def dbC5 : DB :=
  { users := [buyer3], orders := [ord31]
  , tickets := [{ id := 1, order_id := 1, ticket_type_id := 1, seat_number := "A1" }]
  , ticket_types := [ttGen 0 5] }

/-- C5 counterexample: the claim says cancelling a reserved ticket of a type
with total 5 and available 0 restores available to 1; but `cancel_ticket`
only soft-deletes the ticket: at that exact state the cancellation succeeds
and the counters stay at available 0, sold 5. -/
theorem cancel_does_not_release_inventory :
    (cancel_ticket buyer3 1 7 dbC5).1 = Except.ok "Ticket cancelled successfully" ∧
    (cancel_ticket buyer3 1 7 dbC5).2.ticket_types = [ttGen 0 5] ∧
    (ttGen 0 5).available_quantity = some 0 ∧
    (ttGen 0 5).sold_quantity = some 5 ∧
    some (0 : Int) ≠ some (1 : Int) :=
  ⟨rfl, rfl, rfl, rfl, by decide⟩

/-- C5 (amended): cancelling a not-checked-in ticket of an authorized caller
soft-deletes the ticket and leaves the ticket-type table — in particular
`available_quantity` and `sold_quantity` of its type — completely
unchanged; no inventory release happens on this path. -/
theorem cancel_ticket_soft_delete_only :
    ∀ (u : Users) (tid now : Nat) (db : DB) (tk : Tickets) (o : Orders),
      db.tickets.find? (fun t => t.id == tid && t.deleted_at.isNone) = some tk →
      db.orders.find? (fun x => x.id == tk.order_id) = some o →
      (o.user_id = u.id ∨ u.role = "admin") →
      tk.checked_in = false →
      cancel_ticket u tid now db =
        (Except.ok "Ticket cancelled successfully",
          { db with
              tickets := updateFirst (fun t => t.id == tid && t.deleted_at.isNone)
                (fun t => { t with deleted_at := some now }) db.tickets }) ∧
      (cancel_ticket u tid now db).2.ticket_types = db.ticket_types := by
  intro u tid now db tk o h1 h2 hauth hci
  have hauthb : (o.user_id != u.id && u.role != "admin") = false := by
    rcases hauth with h | h <;> simp [h]
  constructor
  · simp [cancel_ticket, h1, h2, hauthb, hci]
  · rw [cancel_ticket_types_eq]

/-- C5 amended-claim witness: the concrete sold-out state of the
counterexample, where the type row is untouched. -/
theorem cancel_ticket_soft_delete_only_witness :
    cancel_ticket buyer3 1 7 dbC5 =
      (Except.ok "Ticket cancelled successfully",
        { dbC5 with
            tickets := updateFirst (fun t => t.id == 1 && t.deleted_at.isNone)
              (fun t => { t with deleted_at := some 7 }) dbC5.tickets }) ∧
    (cancel_ticket buyer3 1 7 dbC5).2.ticket_types = dbC5.ticket_types :=
  cancel_ticket_soft_delete_only buyer3 1 7 dbC5
    { id := 1, order_id := 1, ticket_type_id := 1, seat_number := "A1" } ord31
    (by rfl) (by rfl) (Or.inl rfl) (by rfl)

/-! ## Claim C7: check-in is idempotent-refusing -/

/-- Fixture: a reserved ticket row on order 1. -/
def tkRes : Tickets :=
  { id := 1, order_id := 1, ticket_type_id := 1, seat_number := "A1" }

/-- Fixture: state for check-in, an admin, a completed order and one
not-checked-in ticket. -/
def dbC7 : DB := { users := [admin1], orders := [ordCompleted], tickets := [tkRes] }

/-- C7: for a staff caller authorized for the event, the first check-in of a
not-checked-in ticket of a payment-completed order succeeds and stamps
`checked_in`, `validated_at := now` and `validated_by` with the acting
staff id; an immediately following second check-in of the same ticket fails
with the already-checked-in error and leaves the state of the first call
unchanged; and check-in of a not-checked-in ticket whose order is absent or
not payment-completed fails with the payment-not-confirmed error and
changes nothing. -/
theorem check_in_idempotent_refusing :
    (∀ (u : Users) (tid now now2 : Nat) (db : DB) (tk : Tickets) (o : Orders),
      (u.role = "admin" ∨ u.role = "organizer") →
      db.tickets.find? (fun t => t.id == tid && t.deleted_at.isNone) = some tk →
      tk.checked_in = false →
      db.orders.find? (fun x => x.id == tk.order_id) = some o →
      o.payment_status = "completed" →
      (u.role = "admin" ∨
        ∀ e, db.events.find? (fun x => x.id == o.event_id) = some e →
          e.organizer_id = u.id) →
      (check_in_ticket u tid now db).1 = Except.ok () ∧
      (check_in_ticket u tid now db).2.tickets.find?
          (fun t => t.id == tid && t.deleted_at.isNone) =
        some { tk with checked_in := true, validated_at := some now,
                       validated_by := some u.id } ∧
      check_in_ticket u tid now2 (check_in_ticket u tid now db).2 =
        (Except.error (ApiError.badRequest "Ticket already checked in"),
          (check_in_ticket u tid now db).2)) ∧
    (∀ (u : Users) (tid now : Nat) (db : DB) (tk : Tickets),
      (u.role = "admin" ∨ u.role = "organizer") →
      db.tickets.find? (fun t => t.id == tid && t.deleted_at.isNone) = some tk →
      tk.checked_in = false →
      (db.orders.find? (fun x => x.id == tk.order_id) = none ∨
        ∃ o, db.orders.find? (fun x => x.id == tk.order_id) = some o ∧
          o.payment_status ≠ "completed") →
      check_in_ticket u tid now db =
        (Except.error (ApiError.badRequest "Payment not confirmed for this ticket"),
          db)) := by
  constructor
  · intro u tid now now2 db tk o hrole h1 hci h2 hpay hauth
    have hroleb : (u.role == "admin" || u.role == "organizer") = true := by
      rcases hrole with h | h <;> simp [h]
    have hpayb : (o.payment_status != "completed") = false := by simp [hpay]
    have hauthb : (u.role != "admin" &&
        (match db.events.find? (fun e => e.id == o.event_id) with
         | some event => event.organizer_id != u.id
         | none => false)) = false := by
      rcases hauth with h | h
      · simp [h]
      · cases hfe : db.events.find? (fun e => e.id == o.event_id) with
        | none => simp
        | some e => simp [h e hfe]
    have e1 : check_in_ticket u tid now db =
        (Except.ok (),
          { db with
              tickets := updateFirst (fun t => t.id == tid && t.deleted_at.isNone)
                (fun t => { t with checked_in := true, validated_at := some now,
                                   validated_by := some u.id }) db.tickets }) := by
      simp only [check_in_ticket, hroleb, Bool.true_eq_false, not_true_eq_false,
        if_false, h1, hci, h2, hpayb, hauthb]
      simp
    have hp : (tk.id == tid && tk.deleted_at.isNone) = true := by
      simpa using List.find?_some h1
    have hfind := find?_updateFirst (fun t => t.id == tid && t.deleted_at.isNone)
      (fun t => { t with checked_in := true, validated_at := some now,
                         validated_by := some u.id }) db.tickets tk h1 hp
    refine ⟨by rw [e1], by rw [e1]; exact hfind, ?_⟩
    have e2 : check_in_ticket u tid now2 (check_in_ticket u tid now db).2 =
        (Except.error (ApiError.badRequest "Ticket already checked in"),
          (check_in_ticket u tid now db).2) := by
      rw [e1]
      simp only [check_in_ticket, hroleb, Bool.true_eq_false, not_true_eq_false,
        if_false]
      rw [hfind]
      simp
    exact e2
  · intro u tid now db tk hrole h1 hci hbad
    have hroleb : (u.role == "admin" || u.role == "organizer") = true := by
      rcases hrole with h | h <;> simp [h]
    rcases hbad with h2 | ⟨o, h2, hne⟩
    · simp [check_in_ticket, hroleb, h1, hci, h2]
    · have hpayb : (o.payment_status != "completed") = true := by simp [hne]
      simp [check_in_ticket, hroleb, h1, hci, h2, hpayb]

/-- C7 witness: concrete first and second check-in by an admin, and a
payment-not-confirmed refusal on a pending order. -/
theorem check_in_idempotent_refusing_witness :
    (check_in_ticket admin1 1 100 dbC7).1 = Except.ok () ∧
    (check_in_ticket admin1 1 100 dbC7).2.tickets.find?
        (fun t => t.id == 1 && t.deleted_at.isNone) =
      some { tkRes with checked_in := true, validated_at := some 100,
                        validated_by := some 1 } ∧
    check_in_ticket admin1 1 101 (check_in_ticket admin1 1 100 dbC7).2 =
      (Except.error (ApiError.badRequest "Ticket already checked in"),
        (check_in_ticket admin1 1 100 dbC7).2) ∧
    check_in_ticket admin1 1 100 { users := [admin1], orders := [ord31], tickets := [tkRes] } =
      (Except.error (ApiError.badRequest "Payment not confirmed for this ticket"),
        { users := [admin1], orders := [ord31], tickets := [tkRes] }) := by
  obtain ⟨w1, w2, w3⟩ := check_in_idempotent_refusing.1 admin1 1 100 101 dbC7
    tkRes ordCompleted (Or.inl rfl) (by rfl) (by rfl) (by rfl) (by rfl) (Or.inl rfl)
  refine ⟨w1, w2, w3, ?_⟩
  exact check_in_idempotent_refusing.2 admin1 1 100
    { users := [admin1], orders := [ord31], tickets := [tkRes] } tkRes
    (Or.inl rfl) (by rfl) (by rfl) (Or.inr ⟨ord31, by rfl, by decide⟩)

/-! ## Claim C8: ticket transfer -/

/-- Fixture: the transfer recipient account. -/
def recv4 : Users :=
  { id := 4, email := "r", firstname := "R", surname := "V", role := "user" }

/-- Fixture: transfer state, buyer and recipient, a completed order owning
one reserved ticket; the next order id is fresh. -/
def dbC8 : DB :=
  { users := [buyer3, recv4], orders := [ordCompleted], tickets := [tkRes]
  , next_order_id := 2 }

/-- C8: for an authorized caller and a valid distinct recipient, transfer of
a checked-in or already-validated ticket fails with the already-validated
error and changes nothing; transfer of a not-checked-in, not-validated
ticket succeeds, appends exactly one new zero-cost order with payment
status completed for the recipient, re-points the ticket to that fresh
order (so it is no longer reachable through the old order), and leaves the
ticket-type counters untouched. -/
theorem transfer_ticket_semantics :
    (∀ (u : Users) (tid : Nat) (email : String) (now : Nat) (db : DB)
       (tk : Tickets) (o : Orders) (nw : Users),
      db.tickets.find? (fun t => t.id == tid && t.deleted_at.isNone) = some tk →
      db.orders.find? (fun x => x.id == tk.order_id) = some o →
      (o.user_id = u.id ∨ u.role = "admin") →
      db.users.find? (fun x => x.email == email && x.deleted_at.isNone) = some nw →
      nw.id ≠ u.id →
      (tk.checked_in = true ∨ tk.validated_at ≠ none) →
      transfer_ticket u tid email now db =
        (Except.error (ApiError.badRequest
          "Cannot transfer a ticket that has already been validated or checked in"),
          db)) ∧
    (∀ (u : Users) (tid : Nat) (email : String) (now : Nat) (db : DB)
       (tk : Tickets) (o : Orders) (nw : Users),
      db.tickets.find? (fun t => t.id == tid && t.deleted_at.isNone) = some tk →
      db.orders.find? (fun x => x.id == tk.order_id) = some o →
      (o.user_id = u.id ∨ u.role = "admin") →
      db.users.find? (fun x => x.email == email && x.deleted_at.isNone) = some nw →
      nw.id ≠ u.id →
      tk.checked_in = false → tk.validated_at = none →
      tk.order_id ≠ db.next_order_id →
      (transfer_ticket u tid email now db).1 = Except.ok (o.user_id, nw.id) ∧
      (transfer_ticket u tid email now db).2.orders =
        db.orders ++ [{ id := db.next_order_id, user_id := nw.id, event_id := o.event_id
                      , order_date := now, total_price := 0
                      , payment_method := "transfer", payment_status := "completed" }] ∧
      (transfer_ticket u tid email now db).2.ticket_types = db.ticket_types ∧
      (transfer_ticket u tid email now db).2.tickets.find?
          (fun t => t.id == tid && t.deleted_at.isNone) =
        some { tk with order_id := db.next_order_id } ∧
      db.next_order_id ≠ tk.order_id) := by
  constructor
  · intro u tid email now db tk o nw h1 h2 hauth h3 hne hval
    have hauthb : (o.user_id != u.id && u.role != "admin") = false := by
      rcases hauth with h | h <;> simp [h]
    have hneb : (nw.id == u.id) = false := by simp [hne]
    have hvalb : (tk.checked_in || tk.validated_at.isSome) = true := by
      rcases hval with h | h
      · simp [h]
      · simp [Option.isSome_iff_ne_none, h]
    simp [transfer_ticket, h1, h2, hauthb, h3, hneb, hvalb]
  · intro u tid email now db tk o nw h1 h2 hauth h3 hne hci hva hfresh
    have hauthb : (o.user_id != u.id && u.role != "admin") = false := by
      rcases hauth with h | h <;> simp [h]
    have hneb : (nw.id == u.id) = false := by simp [hne]
    have hvalb : (tk.checked_in || tk.validated_at.isSome) = false := by
      simp [hci, hva]
    have hp : (tk.id == tid && tk.deleted_at.isNone) = true := by
      simpa using List.find?_some h1
    have hfind := find?_updateFirst (fun t => t.id == tid && t.deleted_at.isNone)
      (fun t => { t with order_id := db.next_order_id }) db.tickets tk h1 hp
    have e1 : transfer_ticket u tid email now db =
        (Except.ok (o.user_id, nw.id),
          { db with
              orders := db.orders ++
                [{ id := db.next_order_id, user_id := nw.id, event_id := o.event_id
                 , order_date := now, total_price := 0
                 , payment_method := "transfer", payment_status := "completed" }]
              , tickets := updateFirst (fun t => t.id == tid && t.deleted_at.isNone)
                  (fun t => { t with order_id := db.next_order_id }) db.tickets
              , next_order_id := db.next_order_id + 1 }) := by
      simp [transfer_ticket, h1, h2, hauthb, h3, hneb, hvalb]
    rw [e1]
    exact ⟨rfl, rfl, rfl, hfind, fun h => hfresh h.symm⟩

/-- C8 witness: a concrete refused transfer of a checked-in ticket and a
concrete successful transfer. -/
theorem transfer_ticket_semantics_witness :
    transfer_ticket buyer3 1 "r" 300
        { dbC8 with tickets := [{ tkRes with checked_in := true }] } =
      (Except.error (ApiError.badRequest
        "Cannot transfer a ticket that has already been validated or checked in"),
        { dbC8 with tickets := [{ tkRes with checked_in := true }] }) ∧
    (transfer_ticket buyer3 1 "r" 300 dbC8).1 = Except.ok (3, 4) ∧
    (transfer_ticket buyer3 1 "r" 300 dbC8).2.orders =
      dbC8.orders ++ [{ id := 2, user_id := 4, event_id := 1, order_date := 300
                      , total_price := 0, payment_method := "transfer"
                      , payment_status := "completed" }] ∧
    (transfer_ticket buyer3 1 "r" 300 dbC8).2.ticket_types = dbC8.ticket_types ∧
    (transfer_ticket buyer3 1 "r" 300 dbC8).2.tickets.find?
        (fun t => t.id == 1 && t.deleted_at.isNone) =
      some { tkRes with order_id := 2 } := by
  constructor
  · exact transfer_ticket_semantics.1 buyer3 1 "r" 300
      { dbC8 with tickets := [{ tkRes with checked_in := true }] }
      { tkRes with checked_in := true } ordCompleted recv4
      (by rfl) (by rfl) (Or.inl rfl) (by rfl) (by decide) (Or.inl rfl)
  · obtain ⟨w1, w2, w3, w4, _⟩ := transfer_ticket_semantics.2 buyer3 1 "r" 300 dbC8
      tkRes ordCompleted recv4 (by rfl) (by rfl) (Or.inl rfl) (by rfl) (by decide)
      (by rfl) (by rfl) (by decide)
    exact ⟨w1, w2, w3, w4⟩

/-! ## Claim C6: QR codec round-trip and format errors -/

/-- C6 counterexample: the claim says `Decode` returns a `FormatError` for a
payload bearing an unsupported version, but `decode_ticket_qr_code` never
looks at the `version` entry: a payload carrying all four required fields and
`version = "2.0"` decodes successfully. -/
theorem decode_accepts_unsupported_version :
    decode_ticket_qr_code (some
      [ ("ticket_id", Json.num 1), ("order_id", Json.num 2)
      , ("event_id", Json.num 3), ("user_id", Json.num 4)
      , ("version", Json.str "2.0") ]) =
    Except.ok
      [ ("ticket_id", Json.num 1), ("order_id", Json.num 2)
      , ("event_id", Json.num 3), ("user_id", Json.num 4)
      , ("version", Json.str "2.0") ] := by
  rfl

/-- C6 (amended): decoding the payload produced by encoding returns the same
fields (round-trip law); decoding text that is not valid JSON, or an object
missing a required field, yields a format error; but an unsupported version
is not rejected by decode (any object with the four required fields decodes
successfully) — the version check lives only in `validate_qr_code_data`,
which returns `false` for an explicitly present unsupported version. -/
theorem qr_codec_roundtrip_and_format_errors :
    (∀ (tid oid eid uid : Int) (tt gat : String),
      decode_ticket_qr_code (some (generate_ticket_qr_code tid oid eid uid tt gat)) =
        Except.ok (generate_ticket_qr_code tid oid eid uid tt gat) ∧
      dictGet (generate_ticket_qr_code tid oid eid uid tt gat) "ticket_id" =
        some (Json.num tid) ∧
      dictGet (generate_ticket_qr_code tid oid eid uid tt gat) "order_id" =
        some (Json.num oid) ∧
      dictGet (generate_ticket_qr_code tid oid eid uid tt gat) "event_id" =
        some (Json.num eid) ∧
      dictGet (generate_ticket_qr_code tid oid eid uid tt gat) "user_id" =
        some (Json.num uid) ∧
      dictGet (generate_ticket_qr_code tid oid eid uid tt gat) "ticket_type" =
        some (Json.str tt)) ∧
    (decode_ticket_qr_code none = Except.error "Invalid QR code format") ∧
    (∀ d : Dict,
      (dictGet d "ticket_id" = none ∨ dictGet d "order_id" = none ∨
       dictGet d "event_id" = none ∨ dictGet d "user_id" = none) →
      ∃ f, decode_ticket_qr_code (some d) =
        Except.error ("Missing required field: " ++ f)) ∧
    (∀ d : Dict,
      dictGet d "ticket_id" ≠ none → dictGet d "order_id" ≠ none →
      dictGet d "event_id" ≠ none → dictGet d "user_id" ≠ none →
      decode_ticket_qr_code (some d) = Except.ok d) ∧
    (∀ (d : Dict) (e : Int) (v : String),
      dictGet d "version" = some (Json.str v) → v ≠ "1.0" →
      validate_qr_code_data d e = false) := by
  refine ⟨?_, rfl, ?_, ?_, ?_⟩
  · intro tid oid eid uid tt gat
    refine ⟨?_, by rfl, by rfl, by rfl, by rfl, by rfl⟩
    rfl
  · intro d h
    by_cases h1 : dictGet d "ticket_id" = none
    · exact ⟨"ticket_id", by
        simp [decode_ticket_qr_code, firstMissing, requiredFields, h1]⟩
    · by_cases h2 : dictGet d "order_id" = none
      · exact ⟨"order_id", by
          simp [decode_ticket_qr_code, firstMissing, requiredFields,
            Option.isNone_iff_eq_none, h1, h2]⟩
      · by_cases h3 : dictGet d "event_id" = none
        · exact ⟨"event_id", by
            simp [decode_ticket_qr_code, firstMissing, requiredFields,
              Option.isNone_iff_eq_none, h1, h2, h3]⟩
        · by_cases h4 : dictGet d "user_id" = none
          · exact ⟨"user_id", by
              simp [decode_ticket_qr_code, firstMissing, requiredFields,
                Option.isNone_iff_eq_none, h1, h2, h3, h4]⟩
          · rcases h with h | h | h | h <;> simp_all
  · intro d h1 h2 h3 h4
    simp [decode_ticket_qr_code, firstMissing, requiredFields,
      Option.isNone_iff_eq_none, h1, h2, h3, h4]
  · intro d e v hv hne
    unfold validate_qr_code_data
    rw [hv]
    split
    · rfl
    · simp [hne]

/-- C6 witness: instantiates the round-trip and the error cases at concrete
payloads. -/
theorem qr_codec_roundtrip_and_format_errors_witness :
    decode_ticket_qr_code (some (generate_ticket_qr_code 7 8 9 10 "VIP" "2025-01-01")) =
      Except.ok (generate_ticket_qr_code 7 8 9 10 "VIP" "2025-01-01") ∧
    (∃ f, decode_ticket_qr_code (some [("ticket_id", Json.num 7)]) =
      Except.error ("Missing required field: " ++ f)) ∧
    validate_qr_code_data [("event_id", Json.num 3), ("version", Json.str "2.0")] 3 = false := by
  refine ⟨(qr_codec_roundtrip_and_format_errors.1 7 8 9 10 "VIP" "2025-01-01").1, ?_, ?_⟩
  · exact qr_codec_roundtrip_and_format_errors.2.2.1 [("ticket_id", Json.num 7)]
      (Or.inr (Or.inl (by rfl)))
  · exact qr_codec_roundtrip_and_format_errors.2.2.2.2
      [("event_id", Json.num 3), ("version", Json.str "2.0")] 3 "2.0" (by rfl)
      (by decide)

/-! ## Claim C10: missing version treated as supported -/

/-- C10: `validate_qr_code_data` defaults an absent `version` entry to
`"1.0"` and accepts the payload (only an explicitly present unsupported
version string is rejected); the payloads the fulfillment webhook stores on
tickets omit `version` entirely and pass validation for their own event. -/
theorem missing_version_accepted :
    (∀ (d : Dict) (e : Int), dictGet d "version" = none →
      dictGet d "event_id" = some (Json.num e) →
      validate_qr_code_data d e = true) ∧
    (∀ (d : Dict) (e : Int) (v : String),
      dictGet d "version" = some (Json.str v) → v ≠ "1.0" →
      validate_qr_code_data d e = false) ∧
    (∀ (tid oid eid uid : Int) (tname : String),
      dictGet (webhook_qr_data tid oid eid uid tname) "version" = none ∧
      validate_qr_code_data (webhook_qr_data tid oid eid uid tname) eid = true) := by
  refine ⟨?_, ?_, ?_⟩
  · intro d e hv he
    simp [validate_qr_code_data, hv, he]
  · intro d e v hv hne
    unfold validate_qr_code_data
    rw [hv]
    split
    · rfl
    · simp [hne]
  · intro tid oid eid uid tname
    constructor
    · rfl
    · simp [validate_qr_code_data, webhook_qr_data, dictGet, List.find?]

/-- C10 witness: a concrete webhook payload with no version entry passes
validation for its own event. -/
theorem missing_version_accepted_witness :
    dictGet (webhook_qr_data 1 2 3 4 "VIP") "version" = none ∧
    validate_qr_code_data (webhook_qr_data 1 2 3 4 "VIP") 3 = true ∧
    validate_qr_code_data [("event_id", Json.num 5)] 5 = true := by
  refine ⟨(missing_version_accepted.2.2 1 2 3 4 "VIP").1,
    (missing_version_accepted.2.2 1 2 3 4 "VIP").2, ?_⟩
  exact missing_version_accepted.1 [("event_id", Json.num 5)] 5 (by rfl) (by rfl)

end TicketProz
